import Mathlib

/-!
A shallow embedding of the `vscode-generator` crate (snippet builder,
snippet record, snippets-file container) together with proofs of the
specification's claims about it.

Conventions of the embedding:
* Rust `String` is Lean `String`; `Vec<String>` is `List String`;
  `Option<T>` is `Option T`; `u32` values are `Nat` (no arithmetic is
  ever performed on them, so no wrap-around can occur).
* The crate's `Result<T> = std::result::Result<T, Error>` is the
  inductive `Result T` below.
* The Rust field `prefix` of `Snippet`/`SnippetBuilder` is called
  `prefx` here because `prefix` is a reserved word in Lean; nothing
  else about it changes.
* Sources of nondeterminism (`SystemTime::now`, `fastrand::u8`) and the
  filesystem collaborator are passed in explicitly as parameters.
-/

/-- Opaque payload of an OS-level I/O error (`std::io::Error`); only its
identity matters to the embedding. -/
structure IoError where
  msg : String
deriving DecidableEq, Repr

/-- The crate error type, from `src/error.rs`.  `Io` wraps an underlying
filesystem error, `Json` a serde serialization error (never constructed
by this data model). -/
inductive Error where
  | Io : IoError → Error
  | Json : String → Error
  | NameIsRequired : Error
  | PrefixIsRequired : Error
  | BodyIsEmpty : Error
  | IndexOutOfBounds : Nat → Error
deriving DecidableEq, Repr

/-- The crate result alias `pub type Result<T> = std::result::Result<T, Error>`. -/
inductive Result (T : Type) where
  | ok : T → Result T
  | err : Error → Result T
deriving DecidableEq, Repr

/-- The finalized snippet record, from `src/snippets/snippet.rs`
(`pub struct Snippet`).  `prefx` embeds the Rust field `prefix`. -/
structure Snippet where
  name : String
  prefx : String
  body : List String
  description : Option String
  scope : Option String
  is_file_template : Option Bool
  priority : Option Nat
deriving DecidableEq, Repr

/-- The mutable staging builder, from `src/snippets/snippet_builder.rs`
(`pub struct SnippetBuilder`); same fields as `Snippet`. -/
structure SnippetBuilder where
  name : String
  prefx : String
  body : List String
  description : Option String
  scope : Option String
  is_file_template : Option Bool
  priority : Option Nat
deriving DecidableEq, Repr

/-- `SnippetBuilder::gen_name`: `format!("snippet_{}_{}", timestamp, random_suffix)`
where the suffix is six characters `(b'a' + fastrand::u8(0..26)) as char`.
The wall-clock timestamp `ts` (milliseconds) and the six random draws
`rs` (each in `0..26`) are explicit parameters. -/
def SnippetBuilder.gen_name (ts : Nat) (rs : List Nat) : String :=
  "snippet_" ++ Nat.repr ts ++ "_" ++ String.mk (rs.map (fun r => Char.ofNat (97 + r)))

/-- `impl Default for SnippetBuilder`: auto-generated name, empty
trigger, empty body, all optional fields absent. -/
def SnippetBuilder.default (ts : Nat) (rs : List Nat) : SnippetBuilder :=
  { name := SnippetBuilder.gen_name ts rs
    prefx := ""
    body := []
    description := none
    scope := none
    is_file_template := none
    priority := none }

/-- `SnippetBuilder::new`, which just delegates to `Default::default`. -/
def SnippetBuilder.mkNew (ts : Nat) (rs : List Nat) : SnippetBuilder :=
  SnippetBuilder.default ts rs

/-- `SnippetBuilder::validate`: name, then trigger, then body; the first
failing check returns its error. -/
def SnippetBuilder.validate (b : SnippetBuilder) : Result Unit :=
  if b.name = "" then .err Error.NameIsRequired
  else if b.prefx = "" then .err Error.PrefixIsRequired
  else if b.body = [] then .err Error.BodyIsEmpty
  else .ok ()

/-- `SnippetBuilder::build`: `self.validate()?` then the record with the
staged fields. -/
def SnippetBuilder.build (b : SnippetBuilder) : Result Snippet :=
  match b.validate with
  | .err e => .err e
  | .ok _ =>
    .ok { name := b.name
          prefx := b.prefx
          body := b.body
          description := b.description
          scope := b.scope
          is_file_template := b.is_file_template
          priority := b.priority }

/-- `SnippetBuilder::set_name`. -/
def SnippetBuilder.set_name (b : SnippetBuilder) (name : String) : SnippetBuilder :=
  { b with name := name }

/-- `SnippetBuilder::set_prefix` (the Rust method name; see the naming
convention above). -/
def SnippetBuilder.set_prefx (b : SnippetBuilder) (p : String) : SnippetBuilder :=
  { b with prefx := p }

/-- `SnippetBuilder::set_body`. -/
def SnippetBuilder.set_body (b : SnippetBuilder) (body : List String) : SnippetBuilder :=
  { b with body := body }

/-- `SnippetBuilder::map_body`: the Rust closure mutating `&mut Vec<String>`
is embedded as a pure transformation of the whole body. -/
def SnippetBuilder.map_body (b : SnippetBuilder) (f : List String → List String) : SnippetBuilder :=
  { b with body := f b.body }

/-- `SnippetBuilder::add_line`. -/
def SnippetBuilder.add_line (b : SnippetBuilder) (line : String) : SnippetBuilder :=
  { b with body := b.body ++ [line] }

/-- `SnippetBuilder::add_lines`. -/
def SnippetBuilder.add_lines (b : SnippetBuilder) (lines : List String) : SnippetBuilder :=
  { b with body := b.body ++ lines }

/-- `SnippetBuilder::set_line`: bounds check `n >= self.body.len()`,
then `self.body[n] = line`. -/
def SnippetBuilder.set_line (b : SnippetBuilder) (n : Nat) (line : String) :
    Result SnippetBuilder :=
  if n ≥ b.body.length then .err (Error.IndexOutOfBounds n)
  else .ok { b with body := b.body.set n line }

/-- `SnippetBuilder::map_line`: bounds check, then the transformation of
line `n` (the Rust closure mutating `&mut String` is embedded as a pure
function). -/
def SnippetBuilder.map_line (b : SnippetBuilder) (n : Nat) (f : String → String) :
    Result SnippetBuilder :=
  if n ≥ b.body.length then .err (Error.IndexOutOfBounds n)
  else .ok { b with body := b.body.modify f n }

/-- `SnippetBuilder::set_description`. -/
def SnippetBuilder.set_description (b : SnippetBuilder) (d : String) : SnippetBuilder :=
  { b with description := some d }

/-- `SnippetBuilder::set_scope`. -/
def SnippetBuilder.set_scope (b : SnippetBuilder) (s : String) : SnippetBuilder :=
  { b with scope := some s }

/-- `SnippetBuilder::set_is_file_template`. -/
def SnippetBuilder.set_is_file_template (b : SnippetBuilder) (t : Bool) : SnippetBuilder :=
  { b with is_file_template := some t }

/-- `SnippetBuilder::set_priority`. -/
def SnippetBuilder.set_priority (b : SnippetBuilder) (p : Nat) : SnippetBuilder :=
  { b with priority := some p }

/-- `impl From<SnippetBuilder> for Snippet`: `value.build().unwrap()`.
The `unwrap` panic is embedded as `none`. -/
def Snippet.from_builder (b : SnippetBuilder) : Option Snippet :=
  match b.build with
  | .ok s => some s
  | .err _ => none

/-- `Snippet::new(prefix, body)`:
`SnippetBuilder::new().set_prefix(prefix).set_body(body).build().unwrap()`;
the panic of the `unwrap` is embedded as `none`. -/
def Snippet.mkNew (ts : Nat) (rs : List Nat) (p : String) (body : List String) :
    Option Snippet :=
  Snippet.from_builder (((SnippetBuilder.mkNew ts rs).set_prefx p).set_body body)

/-! ### JSON serialization

`serde_json::to_string_pretty` is embedded at the level of the JSON
document it produces: a `Json` value.  The concrete pretty-printed text
is a bijective rendering of this value, so every claim about the
serialized output (which properties appear, under which names, with
which values) is a claim about the `Json` value. -/

/-- A JSON document. -/
inductive Json where
  | null : Json
  | bool : Bool → Json
  | num : Nat → Json
  | str : String → Json
  | arr : List Json → Json
  | obj : List (String × Json) → Json

/-- The property names of a JSON object (and `[]` on non-objects). -/
def Json.objKeys : Json → List String
  | .obj l => l.map (fun p => p.1)
  | _ => []

/-- The property values of a JSON object (and `[]` on non-objects). -/
def Json.objValues : Json → List Json
  | .obj l => l.map (fun p => p.2)
  | _ => []

/-- An optional serde field: omitted entirely when the value is absent
(`#[serde(skip_serializing_if = "Option::is_none")]`). -/
def optField (k : String) : Option Json → List (String × Json)
  | none => []
  | some v => [(k, v)]

/-- The serde serialization of one `Snippet` (`#[derive(Serialize)]` on
`pub struct Snippet`): the fields in declaration order under their Rust
names, `name` skipped (`#[serde(skip_serializing)]`), each `None`
optional field omitted. -/
def Snippet.toJsonValue (s : Snippet) : Json :=
  Json.obj
    ([("prefix", Json.str s.prefx), ("body", Json.arr (s.body.map Json.str))]
      ++ optField "description" (s.description.map Json.str)
      ++ optField "scope" (s.scope.map Json.str)
      ++ optField "is_file_template" (s.is_file_template.map Json.bool)
      ++ optField "priority" (s.priority.map Json.num))

/-! ### The snippets-file container

Rust's `HashMap<String, Snippet>` is embedded as an association list
with unique keys; `insert` removes any existing binding of the key and
adds the new one (the later insert wins), matching `HashMap::insert`.
Iteration/serialization order is irrelevant per the container contract. -/

/-- Remove every binding of key `k` (at most one ever exists in a map
built by the operations below). -/
def mapRemove (k : String) : List (String × Snippet) → List (String × Snippet)
  | [] => []
  | p :: rest => if p.1 = k then mapRemove k rest else p :: mapRemove k rest

/-- `HashMap::insert(k, v)`: the binding of `k` becomes `v`, all other
bindings unchanged. -/
def mapInsert (m : List (String × Snippet)) (k : String) (v : Snippet) :
    List (String × Snippet) :=
  mapRemove k m ++ [(k, v)]

/-- `HashMap::get(k)` (lookup by key). -/
def mapLookup (k : String) : List (String × Snippet) → Option Snippet
  | [] => none
  | p :: rest => if p.1 = k then some p.2 else mapLookup k rest

/-- The file-level container, from `src/snippets/snippets_file.rs`
(`pub struct SnippetsFile { pub snippets: HashMap<String, Snippet> }`). -/
structure SnippetsFile where
  snippets : List (String × Snippet)
deriving DecidableEq, Repr

/-- `SnippetsFile::new`: collect `(snip.name, snip)` pairs into the map,
inserting in order (a later duplicate key overwrites an earlier one,
as in `HashMap`'s `FromIterator`). -/
def SnippetsFile.mkNew (snippets : List Snippet) : SnippetsFile :=
  { snippets := snippets.foldl (fun m s => mapInsert m s.name s) [] }

/-- `SnippetsFile::add_snippet`: `self.snippets.insert(snippet.name.clone(), snippet)`. -/
def SnippetsFile.add_snippet (sf : SnippetsFile) (s : Snippet) : SnippetsFile :=
  { sf with snippets := mapInsert sf.snippets s.name s }

/-- `SnippetsFile::add_snippets`: `self.snippets.extend(...)`, i.e.
insert each `(name, snippet)` pair in order. -/
def SnippetsFile.add_snippets (sf : SnippetsFile) (ss : List Snippet) : SnippetsFile :=
  { sf with snippets := ss.foldl (fun m s => mapInsert m s.name s) sf.snippets }

/-- The serde serialization of the whole map: one top-level object whose
property names are the snippet names (keys). -/
def SnippetsFile.toJsonValue (sf : SnippetsFile) : Json :=
  Json.obj (sf.snippets.map (fun p => (p.1, p.2.toJsonValue)))

/-- `SnippetsFile::to_json`: `serde_json::to_string_pretty(&self.snippets)`.
On this data model the encoder cannot fail (all leaf types are plain
strings/booleans/integers/sequences), so the result is always `ok`. -/
def SnippetsFile.to_json (sf : SnippetsFile) : Result Json :=
  .ok sf.toJsonValue

/-! ### The filesystem collaborator

Per the specification the filesystem is an external collaborator with
two fallible, blocking operations: "ensure directory exists" and "write
bytes to path".  It is embedded as a state (existing directories, file
contents) plus injected outcomes for the two operations: `createDirFail`
and `writeFail` are the OS-level errors, if any, that the environment
makes the next `create_dir_all`/`write` call return. -/

/-- Filesystem state plus the environment's fault injection for the two
collaborator operations. -/
structure FSState where
  dirs : List String
  files : List (String × Json)
  createDirFail : Option IoError
  writeFail : Option IoError

/-- `Path::parent` of a `/`-separated path string: `none` for the root
and the empty path, otherwise everything before (and excluding) the
final separator — the empty string when the path has a single
component, as for Rust's `Path::parent`. -/
def parentDir (path : String) : Option String :=
  if path = "" ∨ path = "/" then none
  else some (String.mk ((((path.toList.reverse).dropWhile (fun c => c ≠ '/')).drop 1).reverse))

/-- `std::fs::create_dir_all`: fails with the injected error if the
environment says so, otherwise records the directory as existing. -/
def fs_create_dir_all (fs : FSState) (dir : String) : Except IoError FSState :=
  match fs.createDirFail with
  | some e => .error e
  | none => .ok { fs with dirs := if dir ∈ fs.dirs then fs.dirs else dir :: fs.dirs }

/-- `std::fs::write`: fails with the injected error if the environment
says so, otherwise replaces the contents of `path` (overwriting any
existing file). -/
def fs_write (fs : FSState) (path : String) (content : Json) : Except IoError FSState :=
  match fs.writeFail with
  | some e => .error e
  | none =>
    .ok { fs with files := (fs.files.filter (fun p => p.1 ≠ path)) ++ [(path, content)] }

/-- Lookup of a file's contents in the filesystem state. -/
def fsLookup (k : String) : List (String × Json) → Option Json
  | [] => none
  | p :: rest => if p.1 = k then some p.2 else fsLookup k rest

/-- `SnippetsFile::write_to`: create the parent directory (when the path
has one), serialize, write; each failure is wrapped (`Error::from`) and
propagated. -/
def SnippetsFile.write_to (sf : SnippetsFile) (path : String) (fs : FSState) :
    Result FSState :=
  match
    (match parentDir path with
      | some dir => fs_create_dir_all fs dir
      | none => .ok fs) with
  | .error e => .err (Error.Io e)
  | .ok fs1 =>
    match sf.to_json with
    | .err e => .err e
    | .ok json =>
      match fs_write fs1 path json with
      | .error e => .err (Error.Io e)
      | .ok fs2 => .ok fs2

/-! ## Claims -/

/-- C1: for every Builder whose name, prefix (trigger) and body are all
non-empty, `build()` succeeds and returns a Record whose seven fields
are exactly the values last staged on the Builder; when any of the three
validation checks fails, `build()` returns that validation error and
produces no Record. -/
theorem c1_build_exact (b c : SnippetBuilder) (e : Error)
    (hn : b.name ≠ "") (hp : b.prefx ≠ "") (hb : b.body ≠ [])
    (hc : c.validate = .err e) :
    b.build = .ok { name := b.name, prefx := b.prefx, body := b.body,
                    description := b.description, scope := b.scope,
                    is_file_template := b.is_file_template, priority := b.priority }
    ∧ c.build = .err e := by
  constructor
  · rw [SnippetBuilder.build, SnippetBuilder.validate, if_neg hn, if_neg hp, if_neg hb]
  · rw [SnippetBuilder.build, hc]

/-- Witness for C1 at a concrete valid builder and a concrete invalid
one (empty name). -/
theorem c1_build_exact_witness :
    ((⟨"n", "fn", ["x"], some "d", some "rust", some true, some 5⟩ : SnippetBuilder).name ≠ ""
        ∧ (⟨"n", "fn", ["x"], some "d", some "rust", some true, some 5⟩ : SnippetBuilder).prefx ≠ ""
        ∧ (⟨"n", "fn", ["x"], some "d", some "rust", some true, some 5⟩ : SnippetBuilder).body ≠ []
        ∧ (⟨"", "fn", ["x"], none, none, none, none⟩ : SnippetBuilder).validate
            = .err Error.NameIsRequired)
    ∧ (⟨"n", "fn", ["x"], some "d", some "rust", some true, some 5⟩ : SnippetBuilder).build
        = .ok { name := "n", prefx := "fn", body := ["x"], description := some "d",
                scope := some "rust", is_file_template := some true, priority := some 5 }
    ∧ (⟨"", "fn", ["x"], none, none, none, none⟩ : SnippetBuilder).build
        = .err Error.NameIsRequired :=
  ⟨⟨by decide, by decide, by decide, by decide⟩,
    c1_build_exact ⟨"n", "fn", ["x"], some "d", some "rust", some true, some 5⟩
      ⟨"", "fn", ["x"], none, none, none, none⟩ Error.NameIsRequired
      (by decide) (by decide) (by decide) (by decide)⟩

/-- C2: `validate()` fails with the name-required error exactly when the
name is empty; otherwise with `PrefixIsRequired` exactly when the
trigger is empty; otherwise with `BodyIsEmpty` exactly when the body has
zero lines; otherwise succeeds; the checks run in the order
name → trigger → body and the first failing check short-circuits. -/
theorem c2_validate_order (b : SnippetBuilder) :
    (b.validate = .err Error.NameIsRequired ↔ b.name = "")
    ∧ (b.validate = .err Error.PrefixIsRequired ↔ b.name ≠ "" ∧ b.prefx = "")
    ∧ (b.validate = .err Error.BodyIsEmpty ↔ b.name ≠ "" ∧ b.prefx ≠ "" ∧ b.body = [])
    ∧ (b.validate = .ok () ↔ b.name ≠ "" ∧ b.prefx ≠ "" ∧ b.body ≠ []) := by
  rw [SnippetBuilder.validate]
  by_cases h1 : b.name = "" <;> by_cases h2 : b.prefx = "" <;> by_cases h3 : b.body = [] <;>
    simp [h1, h2, h3]

/-- C3: for every Builder and every index `i`, `set_line(i, v)` and
`map_line(i, f)` fail with `IndexOutOfBounds(i)` if and only if
`i ≥ len(body)` at call time; when `i < len(body)` they succeed and the
resulting Builder differs from the input only at body position `i`. -/
theorem c3_set_line_map_line (b : SnippetBuilder) (i : Nat) (v : String)
    (f : String → String) :
    (i ≥ b.body.length →
        b.set_line i v = .err (Error.IndexOutOfBounds i)
        ∧ b.map_line i f = .err (Error.IndexOutOfBounds i))
    ∧ (∀ r, b.set_line i v = .ok r → i < b.body.length)
    ∧ (∀ r, b.map_line i f = .ok r → i < b.body.length)
    ∧ (i < b.body.length →
        b.set_line i v = .ok { b with body := b.body.set i v }
        ∧ b.map_line i f = .ok { b with body := b.body.modify f i }
        ∧ (b.body.set i v).length = b.body.length
        ∧ (b.body.set i v)[i]? = some v
        ∧ (∀ j, j ≠ i → (b.body.set i v)[j]? = b.body[j]?)
        ∧ (b.body.modify f i).length = b.body.length
        ∧ (b.body.modify f i)[i]? = (b.body[i]?).map f
        ∧ (∀ j, j ≠ i → (b.body.modify f i)[j]? = b.body[j]?)) := by
  refine ⟨?_, ?_, ?_, ?_⟩
  · intro hj
    rw [SnippetBuilder.set_line, SnippetBuilder.map_line, if_pos hj, if_pos hj]
    exact ⟨rfl, rfl⟩
  · intro r h
    by_cases hj : i < b.body.length
    · exact hj
    · rw [SnippetBuilder.set_line, if_pos (Nat.le_of_not_lt hj)] at h
      simp at h
  · intro r h
    by_cases hj : i < b.body.length
    · exact hj
    · rw [SnippetBuilder.map_line, if_pos (Nat.le_of_not_lt hj)] at h
      simp at h
  · intro hi
    refine ⟨?_, ?_, List.length_set .., List.getElem?_set_self hi, ?_,
      List.length_modify .., ?_, ?_⟩
    · rw [SnippetBuilder.set_line, if_neg (Nat.not_le.mpr hi)]
    · rw [SnippetBuilder.map_line, if_neg (Nat.not_le.mpr hi)]
    · intro j hj
      exact List.getElem?_set_ne (Ne.symm hj)
    · simp [List.getElem?_modify]
    · intro j hj
      simp [List.getElem?_modify, Ne.symm hj]

/-- Witness for C3: index 0 on a concrete empty-body builder (the
default builder's body) fails out-of-bounds, and index 0 on a concrete
two-line builder succeeds changing only that line. -/
theorem c3_set_line_map_line_witness :
    (0 ≥ (⟨"n", "p", [], none, none, none, none⟩ : SnippetBuilder).body.length
      ∧ 0 < (⟨"n", "p", ["a", "b"], none, none, none, none⟩ : SnippetBuilder).body.length)
    ∧ SnippetBuilder.set_line ⟨"n", "p", [], none, none, none, none⟩ 0 "z"
        = .err (Error.IndexOutOfBounds 0)
    ∧ SnippetBuilder.map_line ⟨"n", "p", [], none, none, none, none⟩ 0 (fun s => s ++ "!")
        = .err (Error.IndexOutOfBounds 0)
    ∧ SnippetBuilder.set_line ⟨"n", "p", ["a", "b"], none, none, none, none⟩ 0 "z"
        = .ok { name := "n", prefx := "p", body := (["a", "b"] : List String).set 0 "z",
                description := none, scope := none, is_file_template := none,
                priority := none }
    ∧ SnippetBuilder.map_line ⟨"n", "p", ["a", "b"], none, none, none, none⟩ 0
          (fun s => s ++ "!")
        = .ok { name := "n", prefx := "p",
                body := (["a", "b"] : List String).modify (fun s => s ++ "!") 0,
                description := none, scope := none, is_file_template := none,
                priority := none } :=
  ⟨⟨by decide, by decide⟩,
    ((c3_set_line_map_line ⟨"n", "p", [], none, none, none, none⟩ 0 "z"
        (fun s => s ++ "!")).1 (by decide)).1,
    ((c3_set_line_map_line ⟨"n", "p", [], none, none, none, none⟩ 0 "z"
        (fun s => s ++ "!")).1 (by decide)).2,
    ((c3_set_line_map_line ⟨"n", "p", ["a", "b"], none, none, none, none⟩ 0 "z"
        (fun s => s ++ "!")).2.2.2 (by decide)).1,
    ((c3_set_line_map_line ⟨"n", "p", ["a", "b"], none, none, none, none⟩ 0 "z"
        (fun s => s ++ "!")).2.2.2 (by decide)).2.1⟩

/-- Every property name of a serialized snippet's value object is one of
the six serializable Rust field names (in particular `name` is never
among them). -/
lemma snippet_objKeys_sub (s : Snippet) :
    s.toJsonValue.objKeys ⊆
      ["prefix", "body", "description", "scope", "is_file_template", "priority"] := by
  rw [Snippet.toJsonValue, Json.objKeys]
  cases s.description <;> cases s.scope <;> cases s.is_file_template <;>
    cases s.priority <;> simp [optField, List.subset_def]

/-- C4: serializing a Container yields a single top-level JSON object
whose property names are exactly the Records' keys; each value object
contains `prefix` and `body`; an optional field appears exactly when it
is present (absent fields are omitted, never emitted as null), the
key/name never appears inside the value object, and a Record with only
trigger and body set serializes to a value object with exactly the
properties `prefix` and `body`. -/
theorem c4_serialization_shape (sf : SnippetsFile) (s t : Snippet)
    (hd : t.description = none) (hs : t.scope = none)
    (hf : t.is_file_template = none) (hp : t.priority = none) :
    sf.to_json = .ok sf.toJsonValue
    ∧ sf.toJsonValue.objKeys = sf.snippets.map (fun p => p.1)
    ∧ sf.toJsonValue.objValues = sf.snippets.map (fun p => p.2.toJsonValue)
    ∧ "prefix" ∈ s.toJsonValue.objKeys
    ∧ "body" ∈ s.toJsonValue.objKeys
    ∧ ("description" ∈ s.toJsonValue.objKeys ↔ s.description ≠ none)
    ∧ ("scope" ∈ s.toJsonValue.objKeys ↔ s.scope ≠ none)
    ∧ ("is_file_template" ∈ s.toJsonValue.objKeys ↔ s.is_file_template ≠ none)
    ∧ ("priority" ∈ s.toJsonValue.objKeys ↔ s.priority ≠ none)
    ∧ "name" ∉ s.toJsonValue.objKeys
    ∧ (∀ v ∈ s.toJsonValue.objValues, v ≠ Json.null)
    ∧ t.toJsonValue.objKeys = ["prefix", "body"] := by
  refine ⟨rfl, ?_, ?_, ?_, ?_, ?_, ?_, ?_, ?_, ?_, ?_, ?_⟩
  · rw [SnippetsFile.toJsonValue, Json.objKeys]
    simp
  · rw [SnippetsFile.toJsonValue, Json.objValues]
    simp
  all_goals
    rw [Snippet.toJsonValue]
  · cases s.description <;> cases s.scope <;> cases s.is_file_template <;>
      cases s.priority <;> simp [optField, Json.objKeys]
  · cases s.description <;> cases s.scope <;> cases s.is_file_template <;>
      cases s.priority <;> simp [optField, Json.objKeys]
  · cases s.description <;> cases s.scope <;> cases s.is_file_template <;>
      cases s.priority <;> simp [optField, Json.objKeys]
  · cases s.description <;> cases s.scope <;> cases s.is_file_template <;>
      cases s.priority <;> simp [optField, Json.objKeys]
  · cases s.description <;> cases s.scope <;> cases s.is_file_template <;>
      cases s.priority <;> simp [optField, Json.objKeys]
  · cases s.description <;> cases s.scope <;> cases s.is_file_template <;>
      cases s.priority <;> simp [optField, Json.objKeys]
  · cases s.description <;> cases s.scope <;> cases s.is_file_template <;>
      cases s.priority <;> simp [optField, Json.objKeys]
  · cases s.description <;> cases s.scope <;> cases s.is_file_template <;>
      cases s.priority <;> simp [optField, Json.objValues]
  · rw [hd, hs, hf, hp]
    simp [optField, Json.objKeys]

/-- Witness for C4 at a concrete container, a fully-populated snippet
and a trigger-and-body-only snippet. -/
theorem c4_serialization_shape_witness :
    ((⟨"k2", "p2", ["y"], none, none, none, none⟩ : Snippet).description = none
      ∧ (⟨"k2", "p2", ["y"], none, none, none, none⟩ : Snippet).scope = none
      ∧ (⟨"k2", "p2", ["y"], none, none, none, none⟩ : Snippet).is_file_template = none
      ∧ (⟨"k2", "p2", ["y"], none, none, none, none⟩ : Snippet).priority = none)
    ∧ (SnippetsFile.to_json ⟨[("k1", ⟨"k1", "p1", ["x"], some "d", some "rust", some true,
            some 9⟩)]⟩
        = .ok (SnippetsFile.toJsonValue ⟨[("k1", ⟨"k1", "p1", ["x"], some "d", some "rust",
            some true, some 9⟩)]⟩)
      ∧ (SnippetsFile.toJsonValue ⟨[("k1", ⟨"k1", "p1", ["x"], some "d", some "rust",
            some true, some 9⟩)]⟩).objKeys
          = ([("k1", (⟨"k1", "p1", ["x"], some "d", some "rust", some true, some 9⟩ :
              Snippet))]).map (fun p => p.1)
      ∧ (SnippetsFile.toJsonValue ⟨[("k1", ⟨"k1", "p1", ["x"], some "d", some "rust",
            some true, some 9⟩)]⟩).objValues
          = ([("k1", (⟨"k1", "p1", ["x"], some "d", some "rust", some true, some 9⟩ :
              Snippet))]).map (fun p => p.2.toJsonValue)
      ∧ "prefix" ∈ (Snippet.toJsonValue ⟨"k1", "p1", ["x"], some "d", some "rust", some true,
            some 9⟩).objKeys
      ∧ "body" ∈ (Snippet.toJsonValue ⟨"k1", "p1", ["x"], some "d", some "rust", some true,
            some 9⟩).objKeys
      ∧ ("description" ∈ (Snippet.toJsonValue ⟨"k1", "p1", ["x"], some "d", some "rust",
            some true, some 9⟩).objKeys
          ↔ (⟨"k1", "p1", ["x"], some "d", some "rust", some true, some 9⟩ :
              Snippet).description ≠ none)
      ∧ ("scope" ∈ (Snippet.toJsonValue ⟨"k1", "p1", ["x"], some "d", some "rust", some true,
            some 9⟩).objKeys
          ↔ (⟨"k1", "p1", ["x"], some "d", some "rust", some true, some 9⟩ :
              Snippet).scope ≠ none)
      ∧ ("is_file_template" ∈ (Snippet.toJsonValue ⟨"k1", "p1", ["x"], some "d", some "rust",
            some true, some 9⟩).objKeys
          ↔ (⟨"k1", "p1", ["x"], some "d", some "rust", some true, some 9⟩ :
              Snippet).is_file_template ≠ none)
      ∧ ("priority" ∈ (Snippet.toJsonValue ⟨"k1", "p1", ["x"], some "d", some "rust",
            some true, some 9⟩).objKeys
          ↔ (⟨"k1", "p1", ["x"], some "d", some "rust", some true, some 9⟩ :
              Snippet).priority ≠ none)
      ∧ "name" ∉ (Snippet.toJsonValue ⟨"k1", "p1", ["x"], some "d", some "rust", some true,
            some 9⟩).objKeys
      ∧ (∀ v ∈ (Snippet.toJsonValue ⟨"k1", "p1", ["x"], some "d", some "rust", some true,
            some 9⟩).objValues, v ≠ Json.null)
      ∧ (Snippet.toJsonValue ⟨"k2", "p2", ["y"], none, none, none, none⟩).objKeys
          = ["prefix", "body"]) :=
  ⟨⟨rfl, rfl, rfl, rfl⟩,
    c4_serialization_shape
      ⟨[("k1", ⟨"k1", "p1", ["x"], some "d", some "rust", some true, some 9⟩)]⟩
      ⟨"k1", "p1", ["x"], some "d", some "rust", some true, some 9⟩
      ⟨"k2", "p2", ["y"], none, none, none, none⟩ rfl rfl rfl rfl⟩

/-- C9: the serialized JSON property name for the file-template flag is
exactly `is_file_template` (the Rust field name, no rename attribute),
not the `isFileTemplate` casing; all emitted property names are the
snake_case Rust field names. -/
theorem c9_snake_case_field_names (s : Snippet) (b : Bool)
    (h : s.is_file_template = some b) :
    "is_file_template" ∈ s.toJsonValue.objKeys
    ∧ "isFileTemplate" ∉ s.toJsonValue.objKeys
    ∧ s.toJsonValue.objKeys ⊆
        ["prefix", "body", "description", "scope", "is_file_template", "priority"] := by
  refine ⟨?_, ?_, snippet_objKeys_sub s⟩
  · rw [Snippet.toJsonValue]
    cases s.description <;> cases s.scope <;> cases s.priority <;>
      simp [h, optField, Json.objKeys]
  · intro hmem
    exact absurd (snippet_objKeys_sub s hmem) (by decide)

/-- Witness for C9 at a concrete snippet with the flag set. -/
theorem c9_snake_case_field_names_witness :
    (⟨"k", "p", ["x"], none, none, some true, none⟩ : Snippet).is_file_template = some true
    ∧ "is_file_template" ∈ (Snippet.toJsonValue ⟨"k", "p", ["x"], none, none, some true,
        none⟩).objKeys
    ∧ "isFileTemplate" ∉ (Snippet.toJsonValue ⟨"k", "p", ["x"], none, none, some true,
        none⟩).objKeys
    ∧ (Snippet.toJsonValue ⟨"k", "p", ["x"], none, none, some true, none⟩).objKeys ⊆
        ["prefix", "body", "description", "scope", "is_file_template", "priority"] :=
  ⟨rfl, c9_snake_case_field_names ⟨"k", "p", ["x"], none, none, some true, none⟩ true rfl⟩

/-- C5: inserting two Records with distinct keys (via `new`,
`add_record`/`add_snippet`, or `add_records`/`add_snippets`) yields a
mapping containing both, of size 2 from empty; inserting two Records
sharing the same key yields a mapping with one entry under that key
holding the later-inserted Record. -/
theorem c5_insert_overwrite (s1 s2 s3 : Snippet)
    (hne : s1.name ≠ s2.name) (heq : s3.name = s1.name) :
    (SnippetsFile.mkNew [s1, s2]).snippets.length = 2
    ∧ mapLookup s1.name (SnippetsFile.mkNew [s1, s2]).snippets = some s1
    ∧ mapLookup s2.name (SnippetsFile.mkNew [s1, s2]).snippets = some s2
    ∧ ((SnippetsFile.mkNew []).add_snippet s1).add_snippet s2 = SnippetsFile.mkNew [s1, s2]
    ∧ (SnippetsFile.mkNew []).add_snippets [s1, s2] = SnippetsFile.mkNew [s1, s2]
    ∧ (SnippetsFile.mkNew [s1, s3]).snippets.length = 1
    ∧ mapLookup s1.name (SnippetsFile.mkNew [s1, s3]).snippets = some s3
    ∧ ((SnippetsFile.mkNew []).add_snippet s1).add_snippet s3
        = SnippetsFile.mkNew [s1, s3] := by
  refine ⟨?_, ?_, ?_, rfl, rfl, ?_, ?_, rfl⟩
  · simp [SnippetsFile.mkNew, mapInsert, mapRemove, hne]
  · simp [SnippetsFile.mkNew, mapInsert, mapRemove, mapLookup, hne]
  · simp [SnippetsFile.mkNew, mapInsert, mapRemove, mapLookup, hne, Ne.symm hne]
  · simp [SnippetsFile.mkNew, mapInsert, mapRemove, heq]
  · simp [SnippetsFile.mkNew, mapInsert, mapRemove, mapLookup, heq]

/-- Witness for C5 with two distinct-keyed snippets and a third sharing
the first one's key. -/
theorem c5_insert_overwrite_witness :
    ((⟨"a", "p1", ["x"], none, none, none, none⟩ : Snippet).name
        ≠ (⟨"b", "p2", ["y"], none, none, none, none⟩ : Snippet).name
      ∧ (⟨"a", "p3", ["z"], none, none, none, none⟩ : Snippet).name
        = (⟨"a", "p1", ["x"], none, none, none, none⟩ : Snippet).name)
    ∧ (SnippetsFile.mkNew [⟨"a", "p1", ["x"], none, none, none, none⟩,
        ⟨"b", "p2", ["y"], none, none, none, none⟩]).snippets.length = 2
    ∧ mapLookup "a" (SnippetsFile.mkNew [⟨"a", "p1", ["x"], none, none, none, none⟩,
        ⟨"b", "p2", ["y"], none, none, none, none⟩]).snippets
        = some ⟨"a", "p1", ["x"], none, none, none, none⟩
    ∧ mapLookup "b" (SnippetsFile.mkNew [⟨"a", "p1", ["x"], none, none, none, none⟩,
        ⟨"b", "p2", ["y"], none, none, none, none⟩]).snippets
        = some ⟨"b", "p2", ["y"], none, none, none, none⟩
    ∧ ((SnippetsFile.mkNew []).add_snippet ⟨"a", "p1", ["x"], none, none, none, none⟩
          |>.add_snippet ⟨"b", "p2", ["y"], none, none, none, none⟩)
        = SnippetsFile.mkNew [⟨"a", "p1", ["x"], none, none, none, none⟩,
            ⟨"b", "p2", ["y"], none, none, none, none⟩]
    ∧ (SnippetsFile.mkNew []).add_snippets [⟨"a", "p1", ["x"], none, none, none, none⟩,
          ⟨"b", "p2", ["y"], none, none, none, none⟩]
        = SnippetsFile.mkNew [⟨"a", "p1", ["x"], none, none, none, none⟩,
            ⟨"b", "p2", ["y"], none, none, none, none⟩]
    ∧ (SnippetsFile.mkNew [⟨"a", "p1", ["x"], none, none, none, none⟩,
        ⟨"a", "p3", ["z"], none, none, none, none⟩]).snippets.length = 1
    ∧ mapLookup "a" (SnippetsFile.mkNew [⟨"a", "p1", ["x"], none, none, none, none⟩,
        ⟨"a", "p3", ["z"], none, none, none, none⟩]).snippets
        = some ⟨"a", "p3", ["z"], none, none, none, none⟩
    ∧ ((SnippetsFile.mkNew []).add_snippet ⟨"a", "p1", ["x"], none, none, none, none⟩
          |>.add_snippet ⟨"a", "p3", ["z"], none, none, none, none⟩)
        = SnippetsFile.mkNew [⟨"a", "p1", ["x"], none, none, none, none⟩,
            ⟨"a", "p3", ["z"], none, none, none, none⟩] :=
  ⟨⟨by decide, rfl⟩,
    c5_insert_overwrite ⟨"a", "p1", ["x"], none, none, none, none⟩
      ⟨"b", "p2", ["y"], none, none, none, none⟩
      ⟨"a", "p3", ["z"], none, none, none, none⟩ (by decide) rfl⟩

/-- Writing a file makes a later lookup of its path return the new
contents. -/
lemma fsLookup_overwrite (l : List (String × Json)) (k : String) (j : Json) :
    fsLookup k (l.filter (fun p => p.1 ≠ k) ++ [(k, j)]) = some j := by
  induction l with
  | nil => simp [fsLookup]
  | cons p rest ih =>
    by_cases h : p.1 = k
    · simpa [List.filter_cons, h] using ih
    · simpa [List.filter_cons, h, fsLookup] using ih

/-- Writing a file leaves the contents of every other path unchanged. -/
lemma fsLookup_other (l : List (String × Json)) (k q : String) (j : Json) (h : q ≠ k) :
    fsLookup q (l.filter (fun p => p.1 ≠ k) ++ [(k, j)]) = fsLookup q l := by
  induction l with
  | nil => simp [fsLookup, Ne.symm h]
  | cons p rest ih =>
    by_cases hp : p.1 = k
    · rw [List.filter_cons, if_neg (by simp [hp])]
      rw [ih, fsLookup, if_neg (by rw [hp]; exact Ne.symm h)]
    · rw [List.filter_cons, if_pos (by simp [hp])]
      by_cases hq : p.1 = q
      · rw [List.cons_append, fsLookup, if_pos hq, fsLookup, if_pos hq]
      · rw [List.cons_append, fsLookup, if_neg hq, fsLookup, if_neg hq, ih]

/-- C6: `write_to(path)` first ensures the parent directory exists, then
serializes, then writes the bytes to `path` overwriting any existing
file; it returns an error exactly when directory creation,
serialization, or the write fails, wrapping the underlying error; the
Container's contents are not consulted mutably (the content written is
exactly the current serialization, and all other files are untouched). -/
theorem c6_write_to (sf : SnippetsFile) (path dir : String) (fs : FSState)
    (e1 e2 : IoError)
    (hdir : parentDir path = some dir)
    (h1 : fs.createDirFail = none) (h2 : fs.writeFail = none) :
    sf.write_to path { fs with createDirFail := some e1 } = .err (Error.Io e1)
    ∧ sf.write_to path { fs with createDirFail := none, writeFail := some e2 }
        = .err (Error.Io e2)
    ∧ sf.to_json = .ok sf.toJsonValue
    ∧ ∃ fs2, sf.write_to path fs = .ok fs2
        ∧ dir ∈ fs2.dirs
        ∧ fsLookup path fs2.files = some sf.toJsonValue
        ∧ (∀ q, q ≠ path → fsLookup q fs2.files = fsLookup q fs.files)
        ∧ fs2.createDirFail = fs.createDirFail ∧ fs2.writeFail = fs.writeFail := by
  refine ⟨?_, ?_, rfl, ?_⟩
  · simp [SnippetsFile.write_to, hdir, fs_create_dir_all]
  · simp [SnippetsFile.write_to, hdir, fs_create_dir_all, fs_write, SnippetsFile.to_json]
  · refine ⟨{ fs with
        dirs := if dir ∈ fs.dirs then fs.dirs else dir :: fs.dirs,
        files := fs.files.filter (fun p => p.1 ≠ path) ++ [(path, sf.toJsonValue)] },
      ?_, ?_, fsLookup_overwrite .., fun q hq => fsLookup_other _ _ _ _ hq, rfl, rfl⟩
    · simp [SnippetsFile.write_to, hdir, fs_create_dir_all, fs_write,
        SnippetsFile.to_json, h1, h2]
    · by_cases hmem : dir ∈ fs.dirs <;> simp [hmem]

/-- Witness for C6 at a concrete container, path and filesystem. -/
theorem c6_write_to_witness :
    (parentDir "snippets/rust.code-snippets" = some "snippets"
      ∧ FSState.createDirFail ⟨[], [("other", Json.null)], none, none⟩ = none
      ∧ FSState.writeFail ⟨[], [("other", Json.null)], none, none⟩ = none)
    ∧ SnippetsFile.write_to ⟨[]⟩ "snippets/rust.code-snippets"
        { (⟨[], [("other", Json.null)], none, none⟩ : FSState) with
          createDirFail := some ⟨"EACCES"⟩ }
        = .err (Error.Io ⟨"EACCES"⟩)
    ∧ SnippetsFile.write_to ⟨[]⟩ "snippets/rust.code-snippets"
        { (⟨[], [("other", Json.null)], none, none⟩ : FSState) with
          createDirFail := none, writeFail := some ⟨"ENOSPC"⟩ }
        = .err (Error.Io ⟨"ENOSPC"⟩)
    ∧ SnippetsFile.to_json ⟨[]⟩ = .ok (SnippetsFile.toJsonValue ⟨[]⟩)
    ∧ ∃ fs2, SnippetsFile.write_to ⟨[]⟩ "snippets/rust.code-snippets"
          ⟨[], [("other", Json.null)], none, none⟩ = .ok fs2
        ∧ "snippets" ∈ fs2.dirs
        ∧ fsLookup "snippets/rust.code-snippets" fs2.files
            = some (SnippetsFile.toJsonValue ⟨[]⟩)
        ∧ (∀ q, q ≠ "snippets/rust.code-snippets" →
            fsLookup q fs2.files
              = fsLookup q (FSState.files ⟨[], [("other", Json.null)], none, none⟩))
        ∧ fs2.createDirFail = FSState.createDirFail ⟨[], [("other", Json.null)], none, none⟩
        ∧ fs2.writeFail = FSState.writeFail ⟨[], [("other", Json.null)], none, none⟩ :=
  ⟨⟨by decide, rfl, rfl⟩,
    c6_write_to ⟨[]⟩ "snippets/rust.code-snippets" "snippets"
      ⟨[], [("other", Json.null)], none, none⟩ ⟨"EACCES"⟩ ⟨"ENOSPC"⟩ (by decide) rfl rfl⟩

/-- The generated name is never the empty string (it starts with the
literal `snippet_`). -/
lemma gen_name_ne_empty (ts : Nat) (rs : List Nat) :
    SnippetBuilder.gen_name ts rs ≠ "" := by
  intro h
  have h2 := congrArg String.length h
  rw [SnippetBuilder.gen_name, String.length_append, String.length_append,
    String.length_append] at h2
  have h8 : ("snippet_" : String).length = 8 := rfl
  have hu : ("_" : String).length = 1 := rfl
  have h0 : ("" : String).length = 0 := rfl
  rw [h8, hu, h0] at h2
  omega

/-- C7: `gen_name` always returns a string of the exact shape
`snippet_<millisecond-timestamp>_<6 lowercase letters>`; consequently
every generated key is non-empty, and it is the Builder's default key.
The wall-clock time and the six random draws are the explicit
parameters of the embedding. -/
theorem c7_gen_name_shape (ts : Nat) (rs : List Nat)
    (h6 : rs.length = 6) (hr : ∀ r ∈ rs, r < 26) :
    SnippetBuilder.gen_name ts rs
        = "snippet_" ++ Nat.repr ts ++ "_"
            ++ String.mk (rs.map (fun r => Char.ofNat (97 + r)))
    ∧ (String.mk (rs.map (fun r => Char.ofNat (97 + r)))).length = 6
    ∧ (∀ c ∈ (String.mk (rs.map (fun r => Char.ofNat (97 + r)))).toList,
        'a' ≤ c ∧ c ≤ 'z')
    ∧ SnippetBuilder.gen_name ts rs ≠ ""
    ∧ (SnippetBuilder.default ts rs).name = SnippetBuilder.gen_name ts rs
    ∧ (SnippetBuilder.mkNew ts rs).name = SnippetBuilder.gen_name ts rs := by
  refine ⟨rfl, ?_, ?_, gen_name_ne_empty ts rs, rfl, rfl⟩
  · show (rs.map (fun r => Char.ofNat (97 + r))).length = 6
    rw [List.length_map, h6]
  · intro c hc
    have hc2 : c ∈ rs.map (fun r => Char.ofNat (97 + r)) := hc
    obtain ⟨r, hrmem, rfl⟩ := List.mem_map.mp hc2
    have hlt : r < 26 := hr r hrmem
    interval_cases r <;> exact ⟨by decide, by decide⟩

/-- Witness for C7 at a concrete timestamp and six concrete draws. -/
theorem c7_gen_name_shape_witness :
    (([0, 5, 10, 15, 20, 25] : List Nat).length = 6
      ∧ (∀ r ∈ ([0, 5, 10, 15, 20, 25] : List Nat), r < 26))
    ∧ SnippetBuilder.gen_name 1700000000000 [0, 5, 10, 15, 20, 25]
        = "snippet_" ++ Nat.repr 1700000000000 ++ "_"
            ++ String.mk (([0, 5, 10, 15, 20, 25] : List Nat).map
                (fun r => Char.ofNat (97 + r)))
    ∧ (String.mk (([0, 5, 10, 15, 20, 25] : List Nat).map
        (fun r => Char.ofNat (97 + r)))).length = 6
    ∧ (∀ c ∈ (String.mk (([0, 5, 10, 15, 20, 25] : List Nat).map
        (fun r => Char.ofNat (97 + r)))).toList, 'a' ≤ c ∧ c ≤ 'z')
    ∧ SnippetBuilder.gen_name 1700000000000 [0, 5, 10, 15, 20, 25] ≠ ""
    ∧ (SnippetBuilder.default 1700000000000 [0, 5, 10, 15, 20, 25]).name
        = SnippetBuilder.gen_name 1700000000000 [0, 5, 10, 15, 20, 25]
    ∧ (SnippetBuilder.mkNew 1700000000000 [0, 5, 10, 15, 20, 25]).name
        = SnippetBuilder.gen_name 1700000000000 [0, 5, 10, 15, 20, 25] :=
  ⟨⟨by decide, by decide⟩,
    c7_gen_name_shape 1700000000000 [0, 5, 10, 15, 20, 25] (by decide) (by decide)⟩

/-- C8: the auto-finalizing conversion from Builder to Record panics
(embedded as `none`) when given an invalid Builder — empty name, empty
trigger, or empty body — rather than returning a recoverable error;
under the precondition that the Builder passes validation the abort
branch is unreachable and the conversion yields the finalized Record. -/
theorem c8_from_builder_abort (b c : SnippetBuilder)
    (hbad : b.name = "" ∨ b.prefx = "" ∨ b.body = [])
    (hc : c.validate = .ok ()) :
    Snippet.from_builder b = none
    ∧ Snippet.from_builder c
        = some { name := c.name, prefx := c.prefx, body := c.body,
                 description := c.description, scope := c.scope,
                 is_file_template := c.is_file_template, priority := c.priority } := by
  constructor
  · have hv : ∃ e, b.validate = .err e := by
      rw [SnippetBuilder.validate]
      by_cases h1 : b.name = ""
      · exact ⟨Error.NameIsRequired, by rw [if_pos h1]⟩
      · by_cases h2 : b.prefx = ""
        · exact ⟨Error.PrefixIsRequired, by rw [if_neg h1, if_pos h2]⟩
        · have h3 : b.body = [] := by
            rcases hbad with h | h | h
            · exact absurd h h1
            · exact absurd h h2
            · exact h
          exact ⟨Error.BodyIsEmpty, by rw [if_neg h1, if_neg h2, if_pos h3]⟩
    obtain ⟨e, he⟩ := hv
    simp only [Snippet.from_builder, SnippetBuilder.build, he]
  · simp only [Snippet.from_builder, SnippetBuilder.build, hc]

/-- Witness for C8 at a concrete invalid builder (empty trigger) and a
concrete valid one. -/
theorem c8_from_builder_abort_witness :
    ((⟨"n", "", ["x"], none, none, none, none⟩ : SnippetBuilder).name = ""
        ∨ (⟨"n", "", ["x"], none, none, none, none⟩ : SnippetBuilder).prefx = ""
        ∨ (⟨"n", "", ["x"], none, none, none, none⟩ : SnippetBuilder).body = [])
    ∧ (⟨"n", "fn", ["x"], none, none, none, none⟩ : SnippetBuilder).validate = .ok ()
    ∧ Snippet.from_builder ⟨"n", "", ["x"], none, none, none, none⟩ = none
    ∧ Snippet.from_builder ⟨"n", "fn", ["x"], none, none, none, none⟩
        = some { name := "n", prefx := "fn", body := ["x"], description := none,
                 scope := none, is_file_template := none, priority := none } :=
  ⟨Or.inr (Or.inl rfl), by decide,
    c8_from_builder_abort ⟨"n", "", ["x"], none, none, none, none⟩
      ⟨"n", "fn", ["x"], none, none, none, none⟩ (Or.inr (Or.inl rfl)) (by decide)⟩

/-- C10: `Snippet::new(prefix, body)` builds with an auto-generated name
and unwraps the result, so it panics (embedded as `none`) whenever the
trigger is empty or the body is an empty sequence; for every non-empty
trigger and non-empty body it returns a Record whose name is the freshly
auto-generated key, whose trigger and body equal the arguments, and
whose optional fields are all absent. -/
theorem c10_snippet_new (ts : Nat) (rs : List Nat) (p1 p2 : String)
    (b1 b2 : List String)
    (hbad : p1 = "" ∨ b1 = []) (hp2 : p2 ≠ "") (hb2 : b2 ≠ []) :
    Snippet.mkNew ts rs p1 b1 = none
    ∧ Snippet.mkNew ts rs p2 b2
        = some { name := SnippetBuilder.gen_name ts rs, prefx := p2, body := b2,
                 description := none, scope := none, is_file_template := none,
                 priority := none } := by
  have hn := gen_name_ne_empty ts rs
  constructor
  · simp only [Snippet.mkNew, Snippet.from_builder, SnippetBuilder.mkNew,
      SnippetBuilder.default, SnippetBuilder.set_prefx, SnippetBuilder.set_body,
      SnippetBuilder.build, SnippetBuilder.validate]
    rcases hbad with h | h
    · simp [h, hn]
    · by_cases hp1 : p1 = "" <;> simp [h, hn, hp1]
  · simp only [Snippet.mkNew, Snippet.from_builder, SnippetBuilder.mkNew,
      SnippetBuilder.default, SnippetBuilder.set_prefx, SnippetBuilder.set_body,
      SnippetBuilder.build, SnippetBuilder.validate]
    simp [hn, hp2, hb2]

/-- Witness for C10 at an empty trigger (panics) and a concrete valid
trigger/body pair. -/
theorem c10_snippet_new_witness :
    ((("" : String) = "" ∨ (["x"] : List String) = [])
      ∧ ("fn" : String) ≠ "" ∧ (["x"] : List String) ≠ [])
    ∧ Snippet.mkNew 0 [0, 0, 0, 0, 0, 0] "" ["x"] = none
    ∧ Snippet.mkNew 0 [0, 0, 0, 0, 0, 0] "fn" ["x"]
        = some { name := SnippetBuilder.gen_name 0 [0, 0, 0, 0, 0, 0], prefx := "fn",
                 body := ["x"], description := none, scope := none,
                 is_file_template := none, priority := none } :=
  ⟨⟨Or.inl rfl, by decide, by decide⟩,
    c10_snippet_new 0 [0, 0, 0, 0, 0, 0] "" "fn" ["x"] ["x"]
      (Or.inl rfl) (by decide) (by decide)⟩
